import Mathlib

/-!
# Verification of the hkx-parser repository

Shallow embedding of `src/hkxparser/bitutil.py` and `src/hkxparser/__main__.py`
(a parser for the HKX tagged binary container) together with proofs that settle the
frozen claims about the natural-language specification.

Modelling conventions:
* Python byte strings are `List Nat` (each entry a byte value).
* Python exceptions are the `PyErr` inductive; fallible code returns `Except PyErr α`.
* Python object references into the type vector (`self.types`) and the item table
  (`self.items`) are modelled as list indices (the arena view): both vectors are
  populated once and every cross reference in the source is created by indexing
  into them, so object identity coincides with the index.
* Methods that can diverge in Python (cyclic parent chains, the recursive
  deserializer on cyclic data) take an explicit fuel argument; exhausting the fuel
  returns `PyErr.outOfFuel`, which models divergence of the source program.
-/

/-- Python exception values as they propagate out of the parser.
`hkxException` is listed because the source *names* that class, but no code path
can actually produce it: see `mkHkxException`. -/
inductive PyErr where
  | indexError
  | typeError
  | attributeError
  | notImplementedError
  | unicodeDecodeError
  | hkxException (msg : String)
  | outOfFuel
deriving DecidableEq, Repr

/-- Embeds `raise HkxException(msg)` from the source.  The class is declared as

    class HkxException(Exception):
        def __init__(*args, **kwargs):
            super.__init__(*args, **kwargs)

`__init__` has no `self` parameter, so the fresh instance lands in `*args`, and
`super.__init__` is the *unbound* `__init__` slot wrapper of the builtin type
`super` (not a `super()` proxy).  Calling it with an `HkxException` first argument
fails the descriptor's type check, so every attempt to construct the exception
raises `TypeError` before the `raise` statement can fire.  The message is
therefore discarded and `TypeError` is what propagates. -/
def mkHkxException (_msg : String) : PyErr := PyErr.typeError

namespace bitutil

/-- Embeds `bitutil.mask`: keep bits `start_bit ..= end_bit` of `value` in place. -/
def mask (value start_bit end_bit : Nat) : Nat :=
  value &&& (((1 <<< (end_bit - start_bit + 1)) - 1) <<< start_bit)

/-- Embeds `bitutil.extract`: mask and shift so the first bit of the mask is the new LSB. -/
def extract (value start_bit end_bit : Nat) : Nat :=
  mask value start_bit end_bit >>> start_bit

/-- Embeds `bitutil.reverse_extract64`: PowerPC style (MSB = bit 0) extraction from a
64-bit window. -/
def reverse_extract64 (value start_bit end_bit : Nat) : Nat :=
  extract value (63 - end_bit) (63 - start_bit)

end bitutil

/-- Embeds `BufferReader`: a positioned cursor over an immutable byte buffer. -/
structure BufferReader where
  data : List Nat
  offset : Nat
deriving DecidableEq, Repr

namespace BufferReader

/-- Embeds `BufferReader.clone`: same data, optionally repositioned. -/
def clone (r : BufferReader) (offset : Option Nat) : BufferReader :=
  match offset with
  | none => { data := r.data, offset := r.offset }
  | some o => { data := r.data, offset := o }

/-- Embeds `BufferReader.eof`. -/
def eof (r : BufferReader) : Bool := r.offset ≥ r.data.length

/-- Embeds `struct.unpack` decodes a fixed number of bytes; the embedding returns the raw
(zero padded) byte slice and leaves endianness/signedness to the call sites.
`size` stands for `struct.calcsize(format)`.  Mirrors:

    start = self.offset + offset
    if start >= len(self.data): raise IndexError
    end = start + struct.calcsize(format)
    buffer = self.data[start:end].ljust(end - start, b'\x00')
    if not peek: self.offset = end
-/
def unpack (r : BufferReader) (size : Nat) (peek : Bool) (offset : Nat) :
    Except PyErr (List Nat × BufferReader) :=
  let start := r.offset + offset
  if start ≥ r.data.length then
    .error .indexError
  else
    let raw := (r.data.drop start).take size
    let buffer := raw ++ List.replicate (size - raw.length) 0
    .ok (buffer, if peek then r else { r with offset := start + size })

/-- Embeds `BufferReader.read`: a plain slice (Python slicing never raises; a short or
empty slice is returned near the end of the buffer). -/
def read (r : BufferReader) (count : Nat) (peek : Bool) (offset : Nat) :
    List Nat × BufferReader :=
  let result := (r.data.drop (r.offset + offset)).take count
  (result, if peek then r else { r with offset := r.offset + count + offset })

/-- Embeds `BufferReader.tell`. -/
def tell (r : BufferReader) : Nat := r.offset

/-- Embeds `BufferReader.seek`. -/
def seek (r : BufferReader) (offset : Nat) : BufferReader := { r with offset := offset }

/-- Embeds `BufferReader.skip`. -/
def skip (r : BufferReader) (count : Nat) : BufferReader :=
  { r with offset := r.offset + count }

end BufferReader

/-- Big-endian value of a byte list (used for `">Q"`, `">I"`). -/
def beValue (bytes : List Nat) : Nat :=
  bytes.foldl (fun acc b => acc * 256 + b) 0

/-- Little-endian value of a byte list (used for `"<Q"`, `"<I"`, ...). -/
def leValue (bytes : List Nat) : Nat :=
  bytes.foldr (fun b acc => acc * 256 + b) 0

/-- Two's-complement reinterpretation of a `width`-byte little-endian value,
for the signed `struct` formats. -/
def toSigned (width : Nat) (v : Nat) : Int :=
  if v < 2 ^ (8 * width - 1) then (v : Int) else (v : Int) - 2 ^ (8 * width)

/-- The mode dispatch of `decode_varint` over the already-peeked window value
(the source's locals `msb = reverse_extract64(value, 0, 7)` and
`mode = msb >> 3` are inlined). -/
def decodeVarintDispatch (reader : BufferReader) (value : Nat) :
    Except PyErr (Nat × Nat) :=
  if bitutil.reverse_extract64 value 0 7 >>> 3 ≤ 15 then
    .ok (1, bitutil.reverse_extract64 value 0 7)
  else if bitutil.reverse_extract64 value 0 7 >>> 3 ≤ 23 then
    .ok (2, bitutil.reverse_extract64 value 2 (16 - 1))
  else if bitutil.reverse_extract64 value 0 7 >>> 3 ≤ 27 then
    .ok (3, bitutil.reverse_extract64 value 3 (24 - 1))
  else if bitutil.reverse_extract64 value 0 7 >>> 3 = 28 then
    .ok (4, bitutil.reverse_extract64 value 5 (32 - 1))
  else if bitutil.reverse_extract64 value 0 7 >>> 3 = 29 then
    .ok (5, bitutil.reverse_extract64 value 5 (40 - 1))
  else if bitutil.reverse_extract64 value 0 7 >>> 3 = 30 then
    .ok (8, bitutil.reverse_extract64 value 5 (64 - 1))
  else if bitutil.reverse_extract64 value 0 7 >>> 3 = 31 ∧
      bitutil.reverse_extract64 value 0 7 &&& 7 = 0 then
    .ok (6, bitutil.reverse_extract64 value 8 (48 - 1))
  else if bitutil.reverse_extract64 value 0 7 >>> 3 = 31 ∧
      bitutil.reverse_extract64 value 0 7 &&& 7 = 1 then do
    let (bytes2, _) ← reader.unpack 8 true 1
    .ok (9, beValue bytes2)
  else
    .error (mkHkxException "Bad varint encoding mode")

/-- Embeds `decode_varint(reader)`: returns the `(size, value)` pair — peek the
big-endian 8-byte window, then dispatch on its mode bits. -/
def decode_varint (reader : BufferReader) : Except PyErr (Nat × Nat) := do
  let (bytes, _) ← reader.unpack 8 true 0
  decodeVarintDispatch reader (beValue bytes)

/-- Embeds `read_varint(reader, max_bits)`: decode, skip, and apply the width guard. -/
def read_varint (reader : BufferReader) (max_bits : Option Nat) :
    Except PyErr (Nat × BufferReader) := do
  let (size, value) ← decode_varint reader
  let reader := reader.skip size
  match max_bits with
  | some bits =>
      if value >>> bits ≠ 0 then
        .error (mkHkxException "varint is too large")
      else
        .ok (value, reader)
  | none => .ok (value, reader)

/-- Embeds `read_varint_u16`. -/
def read_varint_u16 (reader : BufferReader) : Except PyErr (Nat × BufferReader) :=
  read_varint reader (some 16)

/-- Embeds `read_varint_s32` (the source guards 31 bits, so the value is a non-negative
31-bit integer). -/
def read_varint_s32 (reader : BufferReader) : Except PyErr (Nat × BufferReader) :=
  read_varint reader (some 31)

/-- Embeds `read_varint_u32`. -/
def read_varint_u32 (reader : BufferReader) : Except PyErr (Nat × BufferReader) :=
  read_varint reader (some 32)

/-- Python list indexing with a non-negative index (`IndexError` out of range). -/
def pyIndex (l : List α) (i : Nat) : Except PyErr α :=
  match l[i]? with
  | some x => .ok x
  | none => .error .indexError

/-- Embeds `bytes.decode()`, modelled for ASCII content (the claims never exercise
multi-byte UTF-8); non-ASCII bytes raise a decoding error. -/
def pyDecode (bytes : List Nat) : Except PyErr String :=
  if bytes.all (· < 128) then .ok (String.mk (bytes.map Char.ofNat))
  else .error .unicodeDecodeError

namespace Opt

def FORMAT : Nat := 0x00000001
def SUBTYPE : Nat := 0x00000002
def VERSION : Nat := 0x00000010
def INTERFACES : Nat := 0x00020000
def SIZE_ALIGN : Nat := 0x00800000
def FLAGS : Nat := 0x01000000
def FIELDS : Nat := 0x04000000
def ATTRIBUTE : Nat := 0x10000000

end Opt

namespace FormatType

def VOID : Nat := 0
def OPAQUE' : Nat := 1
def BOOL : Nat := 2
def STRING : Nat := 3
def INT : Nat := 4
def FLOAT : Nat := 5
def POINTER : Nat := 6
def RECORD : Nat := 7
def ARRAY : Nat := 8

end FormatType

namespace FormatFlag

def INLINE_ARRAY : Nat := 0x00000020
def SIGNED : Nat := 0x00000200
def INT8 : Nat := 0x00002000
def INT16 : Nat := 0x00004000
def INT32 : Nat := 0x00008000
def INT64 : Nat := 0x00010000

end FormatFlag

namespace ItemFlag

def POINTER : Nat := 0x10
def ARRAY : Nat := 0x20

end ItemFlag

/-- Embeds `read_opts`: reads one u32 varint and remaps its low bits through the fixed
ordered flag list, summing the masks whose bit is set. -/
def read_opts (reader : BufferReader) : Except PyErr (Nat × BufferReader) := do
  let FLAGS := [Opt.FORMAT, Opt.SUBTYPE, Opt.VERSION, Opt.SIZE_ALIGN,
                Opt.FLAGS, Opt.FIELDS, Opt.INTERFACES, Opt.ATTRIBUTE]
  let (value, reader) ← read_varint_u32 reader
  .ok ((((FLAGS.enum).filter (fun p => value &&& (1 <<< p.1) != 0)).map Prod.snd).sum,
       reader)

/-- Embeds `TemplateParam`: a template parameter; values are either a reference into the
type vector (names starting with `t`) or a plain integer. -/
inductive TemplateParam where
  | typeRef (name : String) (value : Option Nat)
  | intVal (name : String) (value : Nat)
deriving DecidableEq, Repr

/-- Embeds `Field` from the source (renamed: `Field` is taken by Mathlib).  `type` is a
reference into the type vector; `none` models a Python `None` reference
(the reserved slot 0). -/
structure HkField where
  name : String
  flags : Nat
  offset : Nat
  type : Option Nat
deriving DecidableEq, Repr

/-- Embeds `Interface` (the constructor discards its `flags` argument, as the source's
`__init__` does). -/
structure Interface where
  type : Option Nat
  name : String
deriving DecidableEq, Repr

/-- Embeds `Type` from the source (renamed: `Type` is a Lean keyword).  All cross
references (`parent`, `subtype`, field types) are indices into the type vector;
`none` models a Python `None` reference.  Fields mirror `Type.__init__`.
`attrib` embeds the source's `attribute` slot (a Lean keyword). -/
structure Ty where
  name : Option String := none
  template : Option (List TemplateParam) := none
  parent : Option Nat := none
  opts : Nat := 0
  format : Option Nat := none
  subtype : Option Nat := none
  version : Option Nat := none
  size : Option Nat := none
  align : Option Nat := none
  flags : Option Nat := none
  fields : List HkField := []
  interfaces : List Interface := []
  attrib : Option Nat := none
deriving DecidableEq, Repr

/-- Embeds `Type.get_format_type`: `self.format & 31`; with `format` unset Python raises
`TypeError` (`None & 31`). -/
def Ty.get_format_type (t : Ty) : Except PyErr Nat :=
  match t.format with
  | none => .error .typeError
  | some f => .ok (f &&& 31)

/-- One step-bounded unfolding of `Type.resolve`'s
`while typ.format is None and typ.parent is not None` walk over the type arena. -/
def resolveGo (types : List (Option Ty)) : Nat → Nat → Except PyErr Nat
  | 0, _ => .error .outOfFuel
  | fuel+1, i =>
      match types[i]? with
      | none => .error .indexError
      | some none => .error .attributeError
      | some (some t) =>
          match t.format, t.parent with
          | none, some parentIdx => resolveGo types fuel parentIdx
          | _, _ => .ok i

/-- Embeds `Type.resolve`.  The fuel `types.length + 1` is exact: a terminating walk in
Python visits pairwise distinct types, hence needs at most `types.length` steps,
and a walk that revisits a type loops forever in Python, which the exhausted fuel
reports as `outOfFuel`. -/
def Ty.resolve (types : List (Option Ty)) (i : Nat) : Except PyErr Nat :=
  resolveGo types (types.length + 1) i

/-- Step-bounded unfolding of `Type.hierarchy` (append then `reversed` in the
source is accumulated here root-first directly). -/
def hierarchyGo (types : List (Option Ty)) :
    Nat → Option Nat → List Nat → Except PyErr (List Nat)
  | 0, _, _ => .error .outOfFuel
  | _+1, none, acc => .ok acc
  | fuel+1, some i, acc =>
      match types[i]? with
      | none => .error .indexError
      | some none => .error .attributeError
      | some (some t) => hierarchyGo types fuel t.parent (i :: acc)

/-- Embeds `Type.hierarchy`: the chain of types from the root ancestor down to `i`. -/
def Ty.hierarchy (types : List (Option Ty)) (i : Nat) : Except PyErr (List Nat) :=
  hierarchyGo types (types.length + 1) (some i) []

/-- Embeds `Type.all_fields`: concatenation of `fields` along the hierarchy. -/
def Ty.all_fields (types : List (Option Ty)) (i : Nat) :
    Except PyErr (List HkField) := do
  let hs ← Ty.hierarchy types i
  .ok (hs.foldl (fun acc j =>
        acc ++ (match types[j]? with | some (some t) => t.fields | _ => [])) [])

/-- The deserializer's value tree. -/
inductive Value where
  | null
  | bool (b : Bool)
  | int (i : Int)
  | float (bits : Nat)
  | str (s : String)
  | arr (elems : List Value)
  | record (fields : List (String × Value))

/-- Embeds `Item`: `type` is a (non-zero) index into the type vector; `value` is the
decode cache, `None` until first populated. -/
structure Item where
  type : Nat
  flags : Nat
  offset : Nat
  count : Nat
  value : Option Value := none

/-- Embeds `Item.is_pointer`. -/
def Item.is_pointer (i : Item) : Bool := i.flags &&& ItemFlag.POINTER != 0

/-- Embeds `Item.is_array`. -/
def Item.is_array (i : Item) : Bool := i.flags &&& ItemFlag.ARRAY != 0

/-- Embeds `Section` header record. -/
structure Section where
  tag : String
  flags : Nat
  total_size : Nat
  data_size : Nat
deriving DecidableEq, Repr

/-- Embeds `Section.__init__(flags, size, tag)`. -/
def Section.make (flags size : Nat) (tag : String) : Section :=
  { tag := tag, flags := flags, total_size := size, data_size := size - 8 }

/-- Embeds `HkxParser.__init__` state.  `decodes` is instrumentation only: it counts how
many times the decode branch of `deserialize_item` has executed (the branch taken
when `item.value is None`); it is not part of the Python state and no control
flow depends on it. -/
structure HkxParser where
  data : Option BufferReader := none
  tstr : Option (List String) := none
  fstr : Option (List String) := none
  types : Option (List (Option Ty)) := none
  items : Option (List (Option Item)) := none
  decodes : Nat := 0

/-- Loop of `read_string`: accumulate bytes until NUL or end of buffer, then
decode.  The fuel is the number of remaining bytes, which bounds the iterations
because every non-eof pass consumes one byte. -/
def readStringGo : Nat → BufferReader → List Nat → Except PyErr (String × BufferReader)
  | 0, r, acc => do
      let s ← pyDecode acc
      .ok (s, r)
  | fuel+1, r, acc =>
      if r.eof then do
        let s ← pyDecode acc
        .ok (s, r)
      else
        let (c, r) := r.read 1 false 0
        if c = [0] then do
          let s ← pyDecode acc
          .ok (s, r)
        else
          readStringGo fuel r (acc ++ c)

/-- Embeds `read_string(reader)`. -/
def read_string (r : BufferReader) : Except PyErr (String × BufferReader) :=
  readStringGo (r.data.length - r.offset) r []

/-- Loop of `read_string_section`. -/
def readStringSectionGo : Nat → BufferReader → List String → Except PyErr (List String)
  | 0, r, acc => if r.eof then .ok acc else .error .outOfFuel
  | fuel+1, r, acc =>
      if r.eof then .ok acc
      else do
        let (s, r) ← read_string r
        readStringSectionGo fuel r (acc ++ [s])

/-- Embeds `read_string_section(reader)`. -/
def read_string_section (r : BufferReader) : Except PyErr (List String) :=
  readStringSectionGo (r.data.length - r.offset) r []

/-- Embeds `HkxParser.TSTR` section handler (the `IndentPrint` calls are console I/O and
are omitted). -/
def HkxParser.TSTR (p : HkxParser) (reader : BufferReader) (header : Section) :
    Except PyErr (HkxParser × BufferReader) :=
  if p.tstr ≠ none then
    .error (mkHkxException "Found multiple TSTR sections")
  else do
    let (bs, reader) := reader.read header.data_size false 0
    let inner : BufferReader := { data := bs, offset := 0 }
    let strs ← read_string_section inner
    .ok ({ p with tstr := some strs }, reader)

/-- Loop of the FIELDS branch of `read_type_body`. -/
def readTypeFieldsGo (fstr : List String) (types : List (Option Ty)) :
    Nat → BufferReader → List HkField → Except PyErr (List HkField × BufferReader)
  | 0, reader, acc => .ok (acc, reader)
  | n+1, reader, acc => do
      let (nameIdx, reader) ← read_varint_u16 reader
      let field_name ← pyIndex fstr nameIdx
      let (field_flags, reader) ← read_varint_u16 reader
      let (field_offset, reader) ← read_varint_u16 reader
      let (typeIdx, reader) ← read_varint_s32 reader
      let slot ← pyIndex types typeIdx
      readTypeFieldsGo fstr types n reader
        (acc ++ [{ name := field_name, flags := field_flags, offset := field_offset,
                   type := slot.map (fun _ => typeIdx) }])

/-- Loop of the INTERFACES branch of `read_type_body`. -/
def readTypeInterfacesGo (fstr : List String) (types : List (Option Ty)) :
    Nat → BufferReader → List Interface → Except PyErr (List Interface × BufferReader)
  | 0, reader, acc => .ok (acc, reader)
  | n+1, reader, acc => do
      let (typeIdx, reader) ← read_varint_s32 reader
      let slot ← pyIndex types typeIdx
      let (nameIdx, reader) ← read_varint_s32 reader
      let interface_name ← pyIndex fstr nameIdx
      readTypeInterfacesGo fstr types n reader
        (acc ++ [{ type := slot.map (fun _ => typeIdx), name := interface_name }])

/-- Embeds `HkxParser.read_type_body`.  The source mutates the `Type` object in the
arena slot `id` field by field; since no interleaved read observes the partially
mutated object (stream reads aside, the body only converts arena slots to
references), the embedding updates the record functionally and writes the slot
back once.  The trailing `IndentPrint` debug block is console I/O and is
omitted. -/
def HkxParser.read_type_body (p : HkxParser) (reader : BufferReader) :
    Except PyErr (HkxParser × BufferReader) := do
  let (id, reader) ← read_varint_s32 reader
  if id = 0 then
    .ok (p, reader)
  else do
    let types ← match p.types with | none => .error .typeError | some ts => .ok ts
    let typ ← match ← pyIndex types id with
      | none => .error .attributeError
      | some t => .ok t
    let (parentIdx, reader) ← read_varint_s32 reader
    let parentSlot ← pyIndex types parentIdx
    let typ := { typ with parent := parentSlot.map (fun _ => parentIdx) }
    let (optsVal, reader) ← read_opts reader
    let typ := { typ with opts := optsVal }
    let (typ, reader) ←
      if typ.opts &&& Opt.FORMAT ≠ 0 then do
        let (fv, reader) ← read_varint_u32 reader
        pure ({ typ with format := some fv }, reader)
      else pure (typ, reader)
    let (typ, reader) ←
      if typ.opts &&& Opt.SUBTYPE ≠ 0 then
        -- The source tests `typ.format == 0`.  When FORMAT is absent the slot
        -- holds None, and Python's `None == 0` is False, so only a
        -- present-and-zero format takes the error branch.
        if typ.format = some 0 then
          .error (mkHkxException
            "Invalid type with Opt::SUBTYPE optional but no Opt::FORMAT.")
        else do
          let (subIdx, reader) ← read_varint_s32 reader
          let slot ← pyIndex types subIdx
          pure ({ typ with subtype := slot.map (fun _ => subIdx) }, reader)
      else pure (typ, reader)
    let (typ, reader) ←
      if typ.opts &&& Opt.VERSION ≠ 0 then do
        let (v, reader) ← read_varint_s32 reader
        pure ({ typ with version := some v }, reader)
      else pure (typ, reader)
    let (typ, reader) ←
      if typ.opts &&& Opt.SIZE_ALIGN ≠ 0 then do
        let (sz, reader) ← read_varint_u32 reader
        let (al, reader) ← read_varint_u32 reader
        pure ({ typ with size := some sz, align := some al }, reader)
      else pure (typ, reader)
    let (typ, reader) ←
      if typ.opts &&& Opt.FLAGS ≠ 0 then do
        let (fl, reader) ← read_varint_u16 reader
        pure ({ typ with flags := some fl }, reader)
      else pure (typ, reader)
    let (typ, reader) ←
      if typ.opts &&& Opt.FIELDS ≠ 0 then do
        let fstr ← match p.fstr with | none => .error .typeError | some f => .ok f
        let (field_count_pair, reader) ← read_varint_s32 reader
        let field_count := bitutil.extract field_count_pair 0 15
        -- placeholder_count (bits 16..31) is computed by the source but unused
        let (fs, reader) ← readTypeFieldsGo fstr types field_count reader typ.fields
        pure ({ typ with fields := fs }, reader)
      else pure (typ, reader)
    let (typ, reader) ←
      if typ.opts &&& Opt.INTERFACES ≠ 0 then do
        let fstr ← match p.fstr with | none => .error .typeError | some f => .ok f
        let (interface_count, reader) ← read_varint_s32 reader
        let (ifs, reader) ← readTypeInterfacesGo fstr types interface_count reader
                              typ.interfaces
        pure ({ typ with interfaces := ifs }, reader)
      else pure (typ, reader)
    let (typ, reader) ←
      if typ.opts &&& Opt.ATTRIBUTE ≠ 0 then do
        let (a, reader) ← read_varint_s32 reader
        pure ({ typ with attrib := some a }, reader)
      else pure (typ, reader)
    .ok ({ p with types := some (types.set id (some typ)) }, reader)

/-- Python's `None` doubles as the "cache unset" sentinel and the null value:
assigning a null decode result to `item.value` leaves the cache observably
unset. -/
def pyStore : Value → Option Value
  | .null => none
  | v => some v

/-- Replace the cached value of the item in slot `k`. -/
def setItemValue (items : List (Option Item)) (k : Nat) (v : Option Value) :
    List (Option Item) :=
  match items[k]? with
  | some (some it) => items.set k (some { it with value := v })
  | _ => items

/-- Python's `x in l` membership test over a list of arena references:
`==` on distinct objects is identity, i.e. index equality. -/
def pyListContains (l : List Nat) (x : Nat) : Bool :=
  l.any (fun y => y == x)

/-- Python's `x & ~m` on arbitrary-precision non-negative ints clears the bits
of `m` inside `x`, i.e. equals `x - (x &&& m)`. -/
def pyAndNotMask (x m : Nat) : Nat := x - (x &&& m)

/-- Python dict assignment `d[k] = v` with insertion-ordered keys. -/
def dictInsert (d : List (String × Value)) (k : String) (v : Value) :
    List (String × Value) :=
  if d.any (fun q => q.1 = k) then d.map (fun q => if q.1 = k then (k, v) else q)
  else d ++ [(k, v)]

/-- Embeds `HkxParser.read_pointer`: a u64 little-endian item ordinal; the returned
reference is `none` when the slot holds the null sentinel. -/
def HkxParser.read_pointer (p : HkxParser) (reader : BufferReader) :
    Except PyErr (Option Nat × BufferReader) := do
  let (bs, reader) ← reader.unpack 8 false 0
  let ordinal := leValue bs
  let items ← match p.items with | none => .error .typeError | some l => .ok l
  let slot ← pyIndex items ordinal
  .ok (slot.map (fun _ => ordinal), reader)

/-- Embeds `HkxParser.deserialize_string`. -/
def HkxParser.deserialize_string (p : HkxParser) (reader : BufferReader)
    (item : Option Nat) : Except PyErr Value := do
  match item with
  | none => .ok .null
  | some k =>
    let items ← match p.items with | none => .error .typeError | some l => .ok l
    let it ← match ← pyIndex items k with
      | none => .error .attributeError
      | some it => .ok it
    if ¬ it.is_array then .error (mkHkxException "Unexpected non-array")
    else
      let r2 := reader.clone (some it.offset)
      let (bs, _) := r2.read (it.count - 1) false 0
      let s ← pyDecode bs
      .ok (.str s)

/-- The pointer-type validation of `deserialize_object_impl`:
`if item is not None and typ.subtype not in item.type.hierarchy():` followed by
the OPAQUE exemption check.  Membership uses Python `==`, which for Type
objects is identity, i.e. index equality in the arena; `None == t` is False
for every type. -/
def checkPointerType (p : HkxParser) (types : List (Option Ty)) (typ : Ty)
    (item : Option Nat) : Except PyErr Unit := do
  match item with
  | none => .ok ()
  | some k => do
    let items ← match p.items with | none => .error .typeError | some l => .ok l
    let it ← match ← pyIndex items k with
      | none => .error .attributeError
      | some it => .ok it
    let hs ← Ty.hierarchy types it.type
    let isMember := match typ.subtype with
      | some s => pyListContains hs s
      | none => false
    if isMember then .ok ()
    else do
      let sub ← match typ.subtype with
        | none => .error .attributeError
        | some s => .ok s
      let subTy ← match ← pyIndex types sub with
        | none => .error .attributeError
        | some t => .ok t
      let sft ← subTy.get_format_type
      if sft ≠ FormatType.OPAQUE' then
        .error (mkHkxException "Unexpected pointer type")
      else .ok ()

mutual

/-- Embeds `HkxParser.deserialize_item`.  The decode branch (taken when
`item.value is None`) bumps the `decodes` instrumentation counter; the cache
slot is written only *after* the recursive decode returns, exactly as in the
source. -/
def HkxParser.deserialize_item : Nat → HkxParser → BufferReader → Option Nat →
    Except PyErr (Value × HkxParser)
  | 0, _, _, _ => .error .outOfFuel
  | _+1, p, _, none => .ok (.null, p)
  | fuel+1, p, reader, some k => do
      let items ← match p.items with | none => .error .typeError | some l => .ok l
      match ← pyIndex items k with
      | none => .ok (.null, p)
      | some item =>
        match item.value with
        | some v => .ok (v, p)
        | none => do
          let item_reader := reader.clone (some item.offset)
          let p := { p with decodes := p.decodes + 1 }
          match item.is_array with
          | true => do
            let (vs, _, p) ← HkxParser.deserializeItemArrayGo fuel p item_reader
                               item.type item.count []
            let value : Value := .arr vs
            let items ← match p.items with | none => .error .typeError | some l => .ok l
            let p := { p with items := some (setItemValue items k (pyStore value)) }
            .ok (value, p)
          | false => do
            let (v, _, p) ← HkxParser.deserialize_object fuel p item_reader
                              (some item.type)
            let items ← match p.items with | none => .error .typeError | some l => .ok l
            let p := { p with items := some (setItemValue items k (pyStore v)) }
            .ok (v, p)
termination_by structural fuel => fuel

/-- The list comprehension of `deserialize_item`'s array branch: `count` objects
decoded sequentially through the same reader. -/
def HkxParser.deserializeItemArrayGo : Nat → HkxParser → BufferReader → Nat → Nat →
    List Value → Except PyErr (List Value × BufferReader × HkxParser)
  | 0, _, _, _, _, _ => .error .outOfFuel
  | _+1, p, reader, _, 0, acc => .ok (acc, reader, p)
  | fuel+1, p, reader, ti, n+1, acc => do
      let (v, reader, p) ← HkxParser.deserialize_object fuel p reader (some ti)
      HkxParser.deserializeItemArrayGo fuel p reader ti n (acc ++ [v])
termination_by structural fuel => fuel

/-- Embeds `HkxParser.deserialize_object`: resolve, align, decode, then stride by
`size` when present.  A `none` type reference models Python's
`None.resolve()` (`AttributeError`). -/
def HkxParser.deserialize_object : Nat → HkxParser → BufferReader → Option Nat →
    Except PyErr (Value × BufferReader × HkxParser)
  | 0, _, _, _ => .error .outOfFuel
  | _+1, _, _, none => .error .attributeError
  | fuel+1, p, reader, some ti => do
      let types ← match p.types with | none => .error .typeError | some ts => .ok ts
      let ri ← Ty.resolve types ti
      let real_typ ← match ← pyIndex types ri with
        | none => .error .attributeError
        | some t => .ok t
      let offset := reader.tell
      let (offset, reader) :=
        match real_typ.align with
        | none => (offset, reader)
        | some al =>
            let aligned := pyAndNotMask (offset + al - 1) (al - 1)
            (aligned, reader.seek aligned)
      let (value, reader, p) ← HkxParser.deserialize_object_impl fuel p reader ri
      let reader :=
        match real_typ.size with
        | none => reader
        | some sz => reader.seek (offset + sz)
      .ok (value, reader, p)
termination_by structural fuel => fuel

/-- Embeds `HkxParser.deserialize_object_impl` over the resolved type (the
unused `name` parameter of the source is dropped).  The source's if-chain of
equality tests `fmt_type == FormatType.X` over the distinct constants
VOID..ARRAY is rendered as a match on `fmt &&& 31`; the ARRAY arm first checks
the INLINE_ARRAY flag and otherwise falls through to the same pointer handling
as POINTER, exactly as the chain does. -/
def HkxParser.deserialize_object_impl : Nat → HkxParser → BufferReader → Nat →
    Except PyErr (Value × BufferReader × HkxParser)
  | 0, _, _, _ => .error .outOfFuel
  | fuel+1, p, reader, ti => do
      let types ← match p.types with | none => .error .typeError | some ts => .ok ts
      let typ ← match ← pyIndex types ti with
        | none => .error .attributeError
        | some t => .ok t
      let fmt ← match typ.format with
        | none => .error .typeError
        | some f => .ok f
      match fmt &&& 31 with
      | 2 => do  -- FormatType.BOOL
        let (bs, reader) ← reader.unpack 1 false 0
        .ok (.bool ((bs.headD 0) != 0), reader, p)
      | 3 => do  -- FormatType.STRING
        let (item, reader) ← HkxParser.read_pointer p reader
        let v ← HkxParser.deserialize_string p reader item
        .ok (v, reader, p)
      | 4 =>  -- FormatType.INT: width from the first set flag, sign from SIGNED
        match fmt &&& FormatFlag.INT8, fmt &&& FormatFlag.INT16,
            fmt &&& FormatFlag.INT32, fmt &&& FormatFlag.INT64 with
        | _+1, _, _, _ => do
          let (bs, reader) ← reader.unpack 1 false 0
          let v := leValue bs
          .ok (.int (match fmt &&& FormatFlag.SIGNED with
                     | 0 => (v : Int) | _+1 => toSigned 1 v), reader, p)
        | 0, _+1, _, _ => do
          let (bs, reader) ← reader.unpack 2 false 0
          let v := leValue bs
          .ok (.int (match fmt &&& FormatFlag.SIGNED with
                     | 0 => (v : Int) | _+1 => toSigned 2 v), reader, p)
        | 0, 0, _+1, _ => do
          let (bs, reader) ← reader.unpack 4 false 0
          let v := leValue bs
          .ok (.int (match fmt &&& FormatFlag.SIGNED with
                     | 0 => (v : Int) | _+1 => toSigned 4 v), reader, p)
        | 0, 0, 0, _+1 => do
          let (bs, reader) ← reader.unpack 8 false 0
          let v := leValue bs
          .ok (.int (match fmt &&& FormatFlag.SIGNED with
                     | 0 => (v : Int) | _+1 => toSigned 8 v), reader, p)
        | 0, 0, 0, 0 => .error .notImplementedError
      | 5 => do  -- FormatType.FLOAT
        let (bs, reader) ← reader.unpack 4 false 0
        .ok (.float (leValue bs), reader, p)
      | 6 => do  -- FormatType.POINTER
        let (item, reader) ← HkxParser.read_pointer p reader
        let _ ← checkPointerType p types typ item
        let (v, p) ← HkxParser.deserialize_item fuel p reader item
        .ok (v, reader, p)
      | 8 =>  -- FormatType.ARRAY: inline when flagged, else out-of-line
        match fmt &&& FormatFlag.INLINE_ARRAY with
        | _+1 => do
          let offset := reader.tell
          let stop ← match typ.size with
            | none => .error .typeError
            | some sz => .ok (offset + sz)
          let (vs, reader, p) ← HkxParser.deserializeInlineGo fuel p reader typ.subtype
                                   stop []
          .ok (.arr vs, reader, p)
        | 0 => do
          let (item, reader) ← HkxParser.read_pointer p reader
          let _ ← checkPointerType p types typ item
          let (v, p) ← HkxParser.deserialize_item fuel p reader item
          .ok (v, reader, p)
      | 7 => do  -- FormatType.RECORD
        let offset := reader.tell
        let fs ← Ty.all_fields types ti
        let (pairs, reader, p) ← HkxParser.deserializeFieldsGo fuel p reader offset fs []
        .ok (.record pairs, reader, p)
      | _ =>  -- VOID, OPAQUE, unknown: `raise NotImplementedError`
        .error .notImplementedError
termination_by structural fuel => fuel

/-- The `while reader.tell() < offset + typ.size` loop of the inline-array
branch. -/
def HkxParser.deserializeInlineGo : Nat → HkxParser → BufferReader → Option Nat →
    Nat → List Value → Except PyErr (List Value × BufferReader × HkxParser)
  | 0, _, _, _, _, _ => .error .outOfFuel
  | fuel+1, p, reader, sub, stop, acc =>
      if reader.tell < stop then do
        let (v, reader, p) ← HkxParser.deserialize_object fuel p reader sub
        HkxParser.deserializeInlineGo fuel p reader sub stop (acc ++ [v])
      else .ok (acc, reader, p)
termination_by structural fuel => fuel

/-- The `for f in typ.all_fields()` loop of the record branch. -/
def HkxParser.deserializeFieldsGo : Nat → HkxParser → BufferReader → Nat →
    List HkField → List (String × Value) →
    Except PyErr (List (String × Value) × BufferReader × HkxParser)
  | 0, _, _, _, _, _ => .error .outOfFuel
  | _+1, p, reader, _, [], acc => .ok (acc, reader, p)
  | fuel+1, p, reader, offset, f :: rest, acc => do
      let reader := reader.seek (offset + f.offset)
      let (v, reader, p) ← HkxParser.deserialize_object fuel p reader f.type
      HkxParser.deserializeFieldsGo fuel p reader offset rest (dictInsert acc f.name v)
termination_by structural fuel => fuel

end

/-! ## Auxiliary definitions used by the theorems -/

/-- The zero-padded big-endian 8-byte window `decode_varint` peeks at
displacement `off` from the cursor. -/
def varintWindowAt (r : BufferReader) (off : Nat) : Nat :=
  beValue ((r.data.drop (r.offset + off)).take 8 ++
    List.replicate (8 - ((r.data.drop (r.offset + off)).take 8).length) 0)

/-- The window at the cursor itself. -/
def varintWindow (r : BufferReader) : Nat := varintWindowAt r 0

/-- A resolve-walk witness for `Type.resolve` starting at `i`: consecutive
parent links, every node before the last lacking `format`, and the last node
either carrying a `format` or being parentless. -/
def IsResChain (types : List (Option Ty)) : Nat → List Nat → Prop
  | _, [] => False
  | i, [j] => i = j ∧ ∃ t, types[j]? = some (some t) ∧
      (t.format ≠ none ∨ t.parent = none)
  | i, j :: j' :: rest => i = j ∧
      (∃ t, types[j]? = some (some t) ∧ t.format = none ∧ t.parent = some j') ∧
      IsResChain types j' (j' :: rest)

/-- Concrete scenario for C5: a size-16, align-8 record type with two u32
fields, in a parser with that type table. -/
def fldS5a : HkField := { name := "a", flags := 0, offset := 0, type := some 2 }
def fldS5b : HkField := { name := "b", flags := 0, offset := 4, type := some 2 }
def tyS5R : Ty :=
  { format := some 7, size := some 16, align := some 8, fields := [fldS5a, fldS5b] }
def tyS5U32 : Ty := { format := some 0x8004 }
def dS5 : List Nat := [0,0,0,0,0,0,0,0, 1,0,0,0, 2,0,0,0, 0,0,0,0,0,0,0,0]
def pS5 : HkxParser :=
  { types := some [none, some tyS5R, some tyS5U32], items := some [none] }

/-- Concrete scenario for C3: a pointer item, uncached and cached variants. -/
def tyC3Ptr : Ty := { format := some 6 }
def itemC3 : Item := { type := 1, flags := 0, offset := 0, count := 1 }
def itemC3c : Item := { type := 1, flags := 0, offset := 0, count := 1, value := some (.int 5) }
def dC3 : List Nat := [0, 0, 0, 0, 0, 0, 0, 0]
def pC3 : HkxParser :=
  { types := some [none, some tyC3Ptr], items := some [none, some itemC3] }
def pC3x (n : Nat) : HkxParser :=
  { types := some [none, some tyC3Ptr], items := some [none, some itemC3], decodes := n }
def pC3c : HkxParser :=
  { types := some [none, some tyC3Ptr], items := some [none, some itemC3c] }

/-- Concrete scenario for C1 (the S6 pointer cycle): two items of record
type 1 whose only field is a pointer (type 2) to the other item; pC1 d is
the parser with decodes counter d. -/
def fldC1 : HkField := { name := "next", flags := 0, offset := 0, type := some 2 }
def tyC1R : Ty := { format := some 7, fields := [fldC1] }
def tyC1P : Ty := { format := some 6, subtype := some 1 }
def itemC1a : Item := { type := 1, flags := 0, offset := 0, count := 1 }
def itemC1b : Item := { type := 1, flags := 0, offset := 8, count := 1 }
def dC1 : List Nat := [2, 0, 0, 0, 0, 0, 0, 0, 1, 0, 0, 0, 0, 0, 0, 0]
def pC1 (d : Nat) : HkxParser :=
  { data := some ⟨dC1, 0⟩, types := some [none, some tyC1R, some tyC1P],
    items := some [none, some itemC1a, some itemC1b], decodes := d }

/-! ## Claims about `BufferReader` (C8, C9) -/

/-- C8. For every `BufferReader` state and every `read` or `unpack` call:
with `peek=True` the cursor position (`tell`) after the call equals the position
before it; with `peek=False` the cursor ends at the end of the read region,
advancing by exactly the byte length consumed including the caller's `offset`
displacement. -/
theorem c8_reader_cursor_discipline (r : BufferReader) (size count off : Nat) :
    (∀ bs r', r.unpack size true off = .ok (bs, r') → r'.tell = r.tell) ∧
    (∀ bs r', r.unpack size false off = .ok (bs, r') →
        r'.tell = r.tell + off + size) ∧
    (r.read count true off).2.tell = r.tell ∧
    (r.read count false off).2.tell = r.tell + off + count := by
  refine ⟨?_, ?_, ?_, ?_⟩
  · intro bs r' h
    unfold BufferReader.unpack at h
    by_cases hs : r.data.length ≤ r.offset + off
    · rw [if_pos hs] at h
      simp at h
    · rw [if_neg hs] at h
      injection h with h'
      injection h' with hb hr
      subst hr
      rfl
  · intro bs r' h
    unfold BufferReader.unpack at h
    by_cases hs : r.data.length ≤ r.offset + off
    · rw [if_pos hs] at h
      simp at h
    · rw [if_neg hs] at h
      injection h with h'
      injection h' with hb hr
      subst hr
      rfl
  · simp [BufferReader.read, BufferReader.tell]
  · simp [BufferReader.read, BufferReader.tell]
    omega

/-- Witness for C8 at a concrete reader: a non-peek `unpack` of 2 bytes with a
1-byte displacement lands the cursor at 3, and a non-peek `read` does the
same. -/
theorem c8_reader_cursor_discipline_witness :
    (⟨[7, 8, 9], 0⟩ : BufferReader).tell + 1 + 2 = 3 ∧
    ((⟨[7, 8, 9], 0⟩ : BufferReader).read 2 false 1).2.tell =
      (⟨[7, 8, 9], 0⟩ : BufferReader).tell + 1 + 2 ∧
    (⟨[7, 8, 9], 3⟩ : BufferReader).tell =
      (⟨[7, 8, 9], 0⟩ : BufferReader).tell + 1 + 2 := by
  refine ⟨by decide, (c8_reader_cursor_discipline ⟨[7, 8, 9], 0⟩ 2 2 1).2.2.2, ?_⟩
  exact (c8_reader_cursor_discipline ⟨[7, 8, 9], 0⟩ 2 2 1).2.1 [8, 9] ⟨[7, 8, 9], 3⟩
    (by rfl)

/-- C9. An `unpack` whose read region begins strictly before the end of the
buffer decodes the available bytes zero-padded to the requested width (this is
what lets the varint decoder request eight bytes near end-of-section), whereas
an `unpack` whose start position lies at or beyond the end of the buffer raises
the truncated-input error (`IndexError`). -/
theorem c9_unpack_zero_pad_or_truncate (r : BufferReader) (size : Nat)
    (peek : Bool) (off : Nat) :
    (r.offset + off < r.data.length →
      ∃ bs r', r.unpack size peek off = .ok (bs, r') ∧
        bs.length = size ∧
        bs = (r.data.drop (r.offset + off)).take size ++
             List.replicate (size - min size (r.data.length - (r.offset + off))) 0) ∧
    (r.data.length ≤ r.offset + off →
      r.unpack size peek off = .error PyErr.indexError) := by
  constructor
  · intro h
    refine ⟨(r.data.drop (r.offset + off)).take size ++
        List.replicate (size - min size (r.data.length - (r.offset + off))) 0,
      if peek then r else { r with offset := r.offset + off + size }, ?_, ?_, rfl⟩
    · unfold BufferReader.unpack
      rw [if_neg (by omega)]
      simp only [List.length_take, List.length_drop]
    · simp only [List.length_append, List.length_take, List.length_drop,
        List.length_replicate]
      omega
  · intro h
    unfold BufferReader.unpack
    rw [if_pos (by omega)]

/-- Witness for C9: reading 4 bytes starting at the last byte of a 2-byte buffer
zero-pads, while starting past the end raises `IndexError`. -/
theorem c9_unpack_zero_pad_or_truncate_witness :
    (∃ r', (⟨[5, 6], 0⟩ : BufferReader).unpack 4 true 1 = .ok ([6, 0, 0, 0], r')) ∧
    (⟨[5, 6], 0⟩ : BufferReader).unpack 4 true 2 = .error PyErr.indexError := by
  constructor
  · obtain ⟨bs, r', h1, _, h3⟩ :=
      (c9_unpack_zero_pad_or_truncate ⟨[5, 6], 0⟩ 4 true 1).1 (by decide)
    have hbs : bs = [6, 0, 0, 0] := by simpa using h3
    exact ⟨r', hbs ▸ h1⟩
  · exact (c9_unpack_zero_pad_or_truncate ⟨[5, 6], 0⟩ 4 true 2).2 (by decide)


/-! ## Claim about the varint decoder (C4) -/

theorem bitutil.extract_eq_div_mod (v s e : Nat) :
    bitutil.extract v s e = v / 2 ^ s % 2 ^ (e - s + 1) := by
  unfold bitutil.extract bitutil.mask
  apply Nat.eq_of_testBit_eq
  intro i
  rw [Nat.one_shiftLeft]
  simp only [Nat.testBit_shiftRight, Nat.testBit_and, Nat.testBit_shiftLeft,
    Nat.testBit_mod_two_pow, Nat.testBit_two_pow_sub_one,
    ← Nat.shiftRight_eq_div_pow, Nat.add_sub_cancel_left]
  simp [Nat.le_add_right, Bool.and_comm]

theorem beValue_go (l : List Nat) : ∀ a : Nat,
    l.foldl (fun acc b => acc * 256 + b) a
      = a * 256 ^ l.length + l.foldl (fun acc b => acc * 256 + b) 0 := by
  induction l with
  | nil => intro a; simp
  | cons x xs ih =>
      intro a
      simp only [List.foldl_cons, List.length_cons]
      rw [ih (a * 256 + x), ih (0 * 256 + x)]
      ring

theorem beValue_cons (b : Nat) (l : List Nat) :
    beValue (b :: l) = b * 256 ^ l.length + beValue l := by
  unfold beValue
  simp only [List.foldl_cons]
  rw [beValue_go l (0 * 256 + b)]
  ring

theorem beValue_lt (l : List Nat) (h : ∀ b ∈ l, b < 256) :
    beValue l < 256 ^ l.length := by
  induction l with
  | nil => simp [beValue]
  | cons x xs ih =>
      rw [beValue_cons]
      have hx : x < 256 := h x (by simp)
      have hxs := ih (fun b hb => h b (by simp [hb]))
      simp only [List.length_cons, pow_succ]
      nlinarith [hxs, hx]


/-- The top byte of the varint window is the byte under the cursor. -/
theorem varint_msb_eq_first_byte (r : BufferReader)
    (h : r.offset < r.data.length) (hb : ∀ b ∈ r.data, b < 256) :
    bitutil.reverse_extract64 (varintWindow r) 0 7 = r.data.getD r.offset 0 := by
  unfold varintWindow varintWindowAt bitutil.reverse_extract64
  rw [bitutil.extract_eq_div_mod]
  simp only [Nat.add_zero]
  have hdrop : r.data.drop r.offset = r.data[r.offset] :: r.data.drop (r.offset + 1) :=
    List.drop_eq_getElem_cons (by omega)
  rw [hdrop]
  have htake : (r.data[r.offset] :: r.data.drop (r.offset + 1)).take 8
      = r.data[r.offset] :: (r.data.drop (r.offset + 1)).take 7 := rfl
  rw [htake, List.cons_append, beValue_cons]
  set t7 : List Nat := (r.data.drop (r.offset + 1)).take 7 with ht7
  set ws : List Nat := t7 ++ List.replicate (8 - (r.data[r.offset] :: t7).length) 0
    with hws
  have ht7len : t7.length ≤ 7 := by
    simp [ht7]
  have hlen : ws.length = 7 := by
    simp only [hws, List.length_append, List.length_replicate, List.length_cons]
    omega
  have hwsb : ∀ b ∈ ws, b < 256 := by
    intro b hbmem
    rcases List.mem_append.1 hbmem with hmem | hmem
    · exact hb b (List.mem_of_mem_drop (List.mem_of_mem_take hmem))
    · rcases (List.mem_replicate.1 hmem) with ⟨_, rfl⟩
      omega
  have hwslt : beValue ws < 2 ^ 56 := by
    have hbv := beValue_lt ws hwsb
    rw [hlen] at hbv
    calc beValue ws < 256 ^ 7 := hbv
    _ = 2 ^ 56 := by norm_num
  have hb0 : r.data[r.offset] < 256 := hb _ (by simp)
  have hgetD : r.data.getD r.offset 0 = r.data[r.offset] := by
    simp [List.getD_eq_getElem?_getD,
      List.getElem?_eq_getElem (by omega : r.offset < r.data.length)]
  rw [hlen, hgetD, show (63 - 7 : Nat) = 56 from rfl,
    show (63 - 0 - (63 - 7) + 1 : Nat) = 8 from rfl,
    show (256 : Nat) ^ 7 = 2 ^ 56 from by norm_num]
  have hdiv : (r.data[r.offset] * 2 ^ 56 + beValue ws) / 2 ^ 56 = r.data[r.offset] := by
    rw [Nat.mul_comm, Nat.mul_add_div (by positivity), Nat.div_eq_of_lt hwslt]
    omega
  rw [hdiv, Nat.mod_eq_of_lt (by omega)]

/-- C4. `decode_varint` follows the mode table: with `b0` the first byte of
the 8-byte big-endian window and `mode = b0 >> 3`: modes `0..15` give
`(1, b0)`; `16..23` give `(2, bits 2..15)`; `24..27` give `(3, bits 3..23)`;
`28` gives `(4, bits 5..31)`; `29` gives `(5, bits 5..39)`; `30` gives
`(8, bits 5..63)`; mode `31` with low 3 bits `0` gives `(6, bits 8..47)`;
mode `31` with low 3 bits `1` gives `(9, next 8 bytes as big-endian u64)`;
any other mode-31 pattern is a hard format error (bit ranges in PowerPC
numbering over the window). -/
theorem c4_decode_varint_mode_table (r : BufferReader)
    (h : r.offset < r.data.length) (hb : ∀ b ∈ r.data, b < 256) :
    bitutil.reverse_extract64 (varintWindow r) 0 7 = r.data.getD r.offset 0 ∧
    (r.data.getD r.offset 0 >>> 3 ≤ 15 →
      decode_varint r = .ok (1, r.data.getD r.offset 0)) ∧
    (16 ≤ r.data.getD r.offset 0 >>> 3 → r.data.getD r.offset 0 >>> 3 ≤ 23 →
      decode_varint r = .ok (2, bitutil.reverse_extract64 (varintWindow r) 2 15)) ∧
    (24 ≤ r.data.getD r.offset 0 >>> 3 → r.data.getD r.offset 0 >>> 3 ≤ 27 →
      decode_varint r = .ok (3, bitutil.reverse_extract64 (varintWindow r) 3 23)) ∧
    (r.data.getD r.offset 0 >>> 3 = 28 →
      decode_varint r = .ok (4, bitutil.reverse_extract64 (varintWindow r) 5 31)) ∧
    (r.data.getD r.offset 0 >>> 3 = 29 →
      decode_varint r = .ok (5, bitutil.reverse_extract64 (varintWindow r) 5 39)) ∧
    (r.data.getD r.offset 0 >>> 3 = 30 →
      decode_varint r = .ok (8, bitutil.reverse_extract64 (varintWindow r) 5 63)) ∧
    (r.data.getD r.offset 0 >>> 3 = 31 → r.data.getD r.offset 0 &&& 7 = 0 →
      decode_varint r = .ok (6, bitutil.reverse_extract64 (varintWindow r) 8 47)) ∧
    (r.data.getD r.offset 0 >>> 3 = 31 → r.data.getD r.offset 0 &&& 7 = 1 →
      r.offset + 1 < r.data.length →
      decode_varint r = .ok (9, varintWindowAt r 1)) ∧
    (r.data.getD r.offset 0 >>> 3 = 31 → 2 ≤ r.data.getD r.offset 0 &&& 7 →
      decode_varint r = .error (mkHkxException "Bad varint encoding mode")) := by
  have hmsb := varint_msb_eq_first_byte r h hb
  have hunp : r.unpack 8 true 0 = .ok ((r.data.drop (r.offset + 0)).take 8 ++
      List.replicate (8 - ((r.data.drop (r.offset + 0)).take 8).length) 0, r) := by
    unfold BufferReader.unpack
    rw [if_neg (by omega)]
    rfl
  have hdv : decode_varint r = decodeVarintDispatch r (varintWindow r) := by
    unfold decode_varint
    rw [hunp]
    rfl
  refine ⟨hmsb, ?_, ?_, ?_, ?_, ?_, ?_, ?_, ?_, ?_⟩
  · intro h1
    rw [hdv]
    unfold decodeVarintDispatch
    rw [hmsb, if_pos h1]
  · intro h1 h2
    rw [hdv]
    unfold decodeVarintDispatch
    rw [hmsb, if_neg (by omega), if_pos h2]
  · intro h1 h2
    rw [hdv]
    unfold decodeVarintDispatch
    rw [hmsb]
    iterate 2 rw [if_neg (by omega)]
    rw [if_pos h2]
  · intro h1
    rw [hdv]
    unfold decodeVarintDispatch
    rw [hmsb]
    iterate 3 rw [if_neg (by omega)]
    rw [if_pos h1]
  · intro h1
    rw [hdv]
    unfold decodeVarintDispatch
    rw [hmsb]
    iterate 4 rw [if_neg (by omega)]
    rw [if_pos h1]
  · intro h1
    rw [hdv]
    unfold decodeVarintDispatch
    rw [hmsb]
    iterate 5 rw [if_neg (by omega)]
    rw [if_pos h1]
  · intro h1 h2
    rw [hdv]
    unfold decodeVarintDispatch
    rw [hmsb]
    iterate 6 rw [if_neg (by omega)]
    rw [if_pos ⟨h1, h2⟩]
  · intro h1 h2 h3
    rw [hdv]
    unfold decodeVarintDispatch
    rw [hmsb]
    iterate 7 rw [if_neg (by omega)]
    rw [if_pos ⟨h1, h2⟩]
    have hunp1 : r.unpack 8 true 1 = .ok ((r.data.drop (r.offset + 1)).take 8 ++
        List.replicate (8 - ((r.data.drop (r.offset + 1)).take 8).length) 0, r) := by
      unfold BufferReader.unpack
      rw [if_neg (by omega)]
      rfl
    rw [hunp1]
    rfl
  · intro h1 h2
    rw [hdv]
    unfold decodeVarintDispatch
    rw [hmsb]
    iterate 8 rw [if_neg (by omega)]

/-- Witness for C4 at the spec's S3 and S2 scenarios: bytes `80 01` decode to
`(2, 0x0001)` (mode 16) and byte `42` decodes to `(1, 0x42)` (mode 8). -/
theorem c4_decode_varint_mode_table_witness :
    decode_varint ⟨[0x80, 0x01], 0⟩ = .ok (2, 1) ∧
    decode_varint ⟨[0x42], 0⟩ = .ok (1, 0x42) := by
  constructor
  · have hmode := (c4_decode_varint_mode_table ⟨[0x80, 0x01], 0⟩ (by decide)
      (by decide)).2.2.1
    have hres := hmode (by decide) (by decide)
    rw [hres]
    rfl
  · have hmode := (c4_decode_varint_mode_table ⟨[0x42], 0⟩ (by decide)
      (by decide)).2.1
    have hres := hmode (by decide)
    rw [hres]
    rfl

/-! ## Claim about the opts remap (C7) -/

theorem except_bind_ok (a : α) (f : α → Except ε β) :
    (Except.ok a >>= f : Except ε β) = f a := rfl

theorem except_bind_error (e : ε) (f : α → Except ε β) :
    ((Except.error e : Except ε α) >>= f) = .error e := rfl

theorem sum_filter_map (p : α → Bool) (f : α → Nat) (l : List α) :
    ((l.filter p).map f).sum = (l.map (fun x => if p x then f x else 0)).sum := by
  induction l with
  | nil => rfl
  | cons x xs ih => by_cases hx : p x <;> simp [hx, ih]

set_option maxHeartbeats 1000000 in
/-- C7. `read_opts` maps bit `i` of the u32 varint it reads to the mask at
index `i` of the ordered list `[FORMAT, SUBTYPE, VERSION, SIZE_ALIGN, FLAGS,
FIELDS, INTERFACES, ATTRIBUTE]`; the result is the union of the masks whose
bit is set. -/
theorem c7_read_opts_remap (r r' : BufferReader) (v : Nat)
    (h : read_varint_u32 r = .ok (v, r')) :
    read_opts r = .ok (
      (if v &&& 1 ≠ 0 then Opt.FORMAT else 0) |||
      (if v &&& 2 ≠ 0 then Opt.SUBTYPE else 0) |||
      (if v &&& 4 ≠ 0 then Opt.VERSION else 0) |||
      (if v &&& 8 ≠ 0 then Opt.SIZE_ALIGN else 0) |||
      (if v &&& 16 ≠ 0 then Opt.FLAGS else 0) |||
      (if v &&& 32 ≠ 0 then Opt.FIELDS else 0) |||
      (if v &&& 64 ≠ 0 then Opt.INTERFACES else 0) |||
      (if v &&& 128 ≠ 0 then Opt.ATTRIBUTE else 0), r') := by
  unfold read_opts
  rw [h, except_bind_ok]
  simp only []
  rw [sum_filter_map]
  simp only [List.enum, List.enumFrom, List.map_cons, List.map_nil, List.sum_cons,
    List.sum_nil, bne_iff_ne, ne_eq]
  norm_num [Opt.FORMAT, Opt.SUBTYPE, Opt.VERSION, Opt.SIZE_ALIGN, Opt.FLAGS,
    Opt.FIELDS, Opt.INTERFACES, Opt.ATTRIBUTE]
  simp only [show (1 <<< 1 : Nat) = 2 from rfl, show (1 <<< 2 : Nat) = 4 from rfl,
    show (1 <<< 3 : Nat) = 8 from rfl, show (1 <<< 4 : Nat) = 16 from rfl,
    show (1 <<< 5 : Nat) = 32 from rfl, show (1 <<< 6 : Nat) = 64 from rfl,
    show (1 <<< 7 : Nat) = 128 from rfl]
  split_ifs <;> decide

/-- Witness for C7 at the spec's S4 scenario: varint value 7 yields
`opts = FORMAT | SUBTYPE | VERSION = 0x13`. -/
theorem c7_read_opts_remap_witness :
    read_varint_u32 ⟨[7], 0⟩ = .ok (7, ⟨[7], 1⟩) ∧
    read_opts ⟨[7], 0⟩ = .ok (0x13, ⟨[7], 1⟩) := by
  refine ⟨by rfl, ?_⟩
  have h := c7_read_opts_remap ⟨[7], 0⟩ ⟨[7], 1⟩ 7 (by rfl)
  rw [h]
  rfl

/-! ## Claim about HkxException construction (C10) -/

/-- C10. Constructing an `HkxException` value itself raises `TypeError` — its
`__init__` takes no `self` parameter and invokes `super.__init__` unbound (see
`mkHkxException`) — so the parser's declared hard-error paths, such as a bad
varint encoding mode or a duplicate TSTR section, propagate `TypeError` to the
caller, never an `HkxException`. -/
theorem c10_hkx_exception_unconstructible :
    (∀ msg : String, mkHkxException msg = PyErr.typeError) ∧
    (∀ msg m : String, mkHkxException msg ≠ PyErr.hkxException m) ∧
    decode_varint ⟨[0xFA], 0⟩ = .error PyErr.typeError ∧
    HkxParser.TSTR { tstr := some [] } ⟨[], 0⟩ (Section.make 0 8 "TSTR")
      = .error PyErr.typeError :=
  ⟨fun _ => rfl, fun _ _ h => PyErr.noConfusion h, rfl, rfl⟩

/-! ## Claim about the SUBTYPE/FORMAT consistency check (C2) -/

/-- C2, the code evaluated at the failing input.  A TBDY body record with the
SUBTYPE opt set and FORMAT absent parses *successfully*: the source's guard
`typ.format == 0` compares `None` with `0`, which is `False` in Python, so the
error branch — whose own message says "Opt::SUBTYPE optional but no
Opt::FORMAT" — is skipped and the subtype reference is stored with a null
format.  A record with FORMAT present and equal to zero does fail (with
`TypeError`, per `mkHkxException`).  Input bytes: `01 00 02 01` is
(id 1, parent 0, opts varint 2 = SUBTYPE bit, subtype ordinal 1); `01 00 03 00 01`
is (id 1, parent 0, opts varint 3 = FORMAT and SUBTYPE bits, format 0, …). -/
theorem c2_subtype_without_format_not_rejected :
    (HkxParser.read_type_body { types := some [none, some {}] } ⟨[1, 0, 2, 1], 0⟩
      = .ok ({ types := some [none,
                 some { parent := none, opts := 2, subtype := some 1 }] },
             ⟨[1, 0, 2, 1], 4⟩)) ∧
    (HkxParser.read_type_body { types := some [none, some {}] } ⟨[1, 0, 3, 0, 1], 0⟩
      = .error PyErr.typeError) :=
  ⟨rfl, rfl⟩

/-! ## Claim about type resolution (C6) -/

theorem resolveGo_stop (types : List (Option Ty)) (fuel i : Nat) (t : Ty)
    (hj : types[i]? = some (some t))
    (hlast : t.format ≠ none ∨ t.parent = none) :
    resolveGo types (fuel + 1) i = .ok i := by
  rcases hlast with hf | hp
  · rcases ht : t.format with _ | f
    · exact absurd ht hf
    · simp only [resolveGo, hj, ht]
  · rcases ht : t.format with _ | f
    · simp only [resolveGo, hj, ht, hp]
    · simp only [resolveGo, hj, ht]

theorem resolveGo_step (types : List (Option Ty)) (fuel i p : Nat) (t : Ty)
    (hj : types[i]? = some (some t)) (hf : t.format = none)
    (hp : t.parent = some p) :
    resolveGo types (fuel + 1) i = resolveGo types fuel p := by
  simp only [resolveGo, hj, hf, hp]

/-- C6 (amended).  For every type `i` whose parent chain is a finite walk `c`,
the `resolve` walk terminates within `depth(parent-chain) = c.length` steps
(and a fortiori at every larger fuel, in particular the one `Ty.resolve`
uses); the resolved type's `format` is non-null provided some type on the
chain carries a `format`.  (The original claim's unconditional "format is
non-null" fails on a format-less chain: see the counterexample.) -/
theorem c6_resolve_terminates (types : List (Option Ty)) (i : Nat) (c : List Nat)
    (h : IsResChain types i c) :
    ∃ j t, resolveGo types c.length i = .ok j ∧
      (∀ fuel, c.length ≤ fuel → resolveGo types fuel i = .ok j) ∧
      types[j]? = some (some t) ∧
      ((∃ k tk, k ∈ c ∧ types[k]? = some (some tk) ∧ tk.format ≠ none) →
        t.format ≠ none) := by
  induction c generalizing i with
  | nil => exact absurd h (by simp [IsResChain])
  | cons j rest ih =>
      cases rest with
      | nil =>
          obtain ⟨rfl, t, hj, hlast⟩ := h
          refine ⟨i, t, resolveGo_stop types 0 i t hj hlast, ?_, hj, ?_⟩
          · intro fuel hfuel
            match fuel, hfuel with
            | fuel + 1, _ => exact resolveGo_stop types fuel i t hj hlast
          · rintro ⟨k, tk, hk, hktypes, hkfmt⟩
            have hki : k = i := by simpa using hk
            subst hki
            rw [hj] at hktypes
            injection hktypes with h'
            injection h' with h''
            rw [h'']
            exact hkfmt
      | cons j' rest' =>
          obtain ⟨rfl, ⟨t, hj, hfmt, hpar⟩, hrest⟩ := h
          obtain ⟨k, tk, hbase, hmono, hk, hkfmt⟩ := ih j' hrest
          refine ⟨k, tk, ?_, ?_, hk, ?_⟩
          · rw [show ((i :: j' :: rest').length) = (j' :: rest').length + 1 by simp,
              resolveGo_step types (j' :: rest').length i j' t hj hfmt hpar]
            exact hbase
          · intro fuel hfuel
            match fuel, hfuel with
            | fuel + 1, hfuel =>
              rw [resolveGo_step types fuel i j' t hj hfmt hpar]
              exact hmono fuel (by simp only [List.length_cons] at hfuel ⊢; omega)
          · rintro ⟨m, tm, hm, hmtypes, hmfmt⟩
            rcases List.mem_cons.1 hm with rfl | hm'
            · rw [hj] at hmtypes
              injection hmtypes with h'
              injection h' with h''
              rw [← h''] at hmfmt
              exact absurd hfmt hmfmt
            · exact hkfmt ⟨m, tm, hm', hmtypes, hmfmt⟩

/-- C6 counterexample: a fresh format-less, parentless type resolves to itself
and the resolved `format` is null, refuting the claim's universal
"resolve(t).format is non-null". -/
theorem c6_resolve_counterexample :
    Ty.resolve [none, some {}] 1 = .ok 1 ∧
    ([none, some ({} : Ty)])[1]? = some (some ({} : Ty)) ∧
    ({} : Ty).format = none :=
  ⟨rfl, rfl, rfl⟩

/-- Witness for C6 at a two-link chain: a type whose parent carries the format
resolves to the parent within 2 steps. -/
theorem c6_resolve_terminates_witness :
    ∃ j, resolveGo [none, some { format := none, parent := some 2 },
        some { format := some 4 }] 2 1 = .ok j := by
  obtain ⟨j, t, h1, _⟩ := c6_resolve_terminates
    [none, some { format := none, parent := some 2 }, some { format := some 4 }]
    1 [1, 2]
    ⟨rfl, ⟨{ format := none, parent := some 2 }, rfl, rfl, rfl⟩,
     rfl, ⟨{ format := some 4 }, rfl, Or.inl (by simp)⟩⟩
  exact ⟨j, h1⟩


theorem pyAndNotMask_two_pow (x k : Nat) :
    pyAndNotMask x (2 ^ k - 1) = x - x % 2 ^ k := by
  unfold pyAndNotMask
  rw [Nat.and_pow_two_sub_one_eq_mod]

theorem c5_deserialize_object_size_align
    (fuel : Nat) (p : HkxParser) (r : BufferReader) (ti ri k s : Nat) (rt : Ty)
    (ts : List (Option Ty)) (v : Value) (r' : BufferReader) (p' : HkxParser)
    (hts : p.types = some ts) (hres : Ty.resolve ts ti = .ok ri)
    (hlook : ts[ri]? = some (some rt))
    (halign : rt.align = some (2 ^ k)) (hsize : rt.size = some s)
    (hrun : HkxParser.deserialize_object (fuel + 1) p r (some ti) = .ok (v, r', p')) :
    ∃ ao r'',
      ao % 2 ^ k = 0 ∧ r.offset ≤ ao ∧ ao < r.offset + 2 ^ k ∧
      HkxParser.deserialize_object_impl fuel p (r.seek ao) ri = .ok (v, r'', p') ∧
      r' = r''.seek (ao + s) ∧ r'.offset = ao + s := by
  unfold HkxParser.deserialize_object at hrun
  rw [hts] at hrun
  simp only [except_bind_ok] at hrun
  rw [hres] at hrun
  simp only [except_bind_ok] at hrun
  unfold pyIndex at hrun
  rw [hlook] at hrun
  simp only [except_bind_ok] at hrun
  rw [halign, hsize] at hrun
  simp only [] at hrun
  rcases himpl : HkxParser.deserialize_object_impl fuel p
      (r.seek (pyAndNotMask (r.tell + 2 ^ k - 1) (2 ^ k - 1))) ri with e | ⟨v2, r2, p2⟩
  · rw [himpl] at hrun
    simp only [except_bind_error] at hrun
    cases hrun
  · rw [himpl] at hrun
    simp only [except_bind_ok] at hrun
    injection hrun with h1
    injection h1 with hv h2
    injection h2 with hr hp2
    subst hv
    subst hp2
    subst hr
    have hm : 0 < 2 ^ k := Nat.pos_pow_of_pos k (by omega)
    have hdm := Nat.div_add_mod (r.tell + 2 ^ k - 1) (2 ^ k)
    have hlt : (r.tell + 2 ^ k - 1) % 2 ^ k < 2 ^ k := Nat.mod_lt _ hm
    have htell : r.tell = r.offset := rfl
    refine ⟨pyAndNotMask (r.tell + 2 ^ k - 1) (2 ^ k - 1), r2, ?_, ?_, ?_, himpl,
      rfl, rfl⟩
    · rw [pyAndNotMask_two_pow,
        show r.tell + 2 ^ k - 1 - (r.tell + 2 ^ k - 1) % 2 ^ k
          = 2 ^ k * ((r.tell + 2 ^ k - 1) / 2 ^ k) from by omega,
        Nat.mul_mod_right]
    · rw [pyAndNotMask_two_pow, htell] at *
      omega
    · rw [pyAndNotMask_two_pow, htell] at *
      omega


/-- Witness for C5 at the spec's S5 scenario: a size-16, align-8 record with two
u32 fields, entered at offset 3, is decoded from offset 8 (`{a: 1, b: 2}`) and
leaves the cursor at 24. -/
theorem c5_deserialize_object_size_align_witness :
    ∃ ao r'', ao % 2 ^ 3 = 0 ∧
      (⟨dS5, 3⟩ : BufferReader).offset ≤ ao ∧
      ao < (⟨dS5, 3⟩ : BufferReader).offset + 2 ^ 3 ∧
      HkxParser.deserialize_object_impl 9 pS5 ((⟨dS5, 3⟩ : BufferReader).seek ao) 1
        = .ok (.record [("a", .int 1), ("b", .int 2)], r'', pS5) ∧
      (⟨dS5, 24⟩ : BufferReader) = r''.seek (ao + 16) ∧
      (⟨dS5, 24⟩ : BufferReader).offset = ao + 16 :=
  c5_deserialize_object_size_align 9 pS5 ⟨dS5, 3⟩ 1 1 3 16 tyS5R
    [none, some tyS5R, some tyS5U32]
    (.record [("a", .int 1), ("b", .int 2)]) ⟨dS5, 24⟩ pS5
    rfl rfl rfl rfl rfl rfl

/-- C3 (amended). Once an item's value cache holds a value, a subsequent
`deserialize_item` call performs no decoding: it returns the cached value
itself (the same node) and leaves the entire parser state — including the
`decodes` instrumentation counter — unchanged. -/
theorem c3_deserialize_item_cache_hit (fuel : Nat) (p : HkxParser)
    (r : BufferReader) (idx : Nat) (items : List (Option Item)) (it : Item)
    (v : Value) (hitems : p.items = some items)
    (hidx : items[idx]? = some (some it)) (hval : it.value = some v) :
    HkxParser.deserialize_item (fuel + 1) p r (some idx) = .ok (v, p) := by
  unfold HkxParser.deserialize_item
  rw [hitems]
  simp only [except_bind_ok]
  unfold pyIndex
  rw [hidx]
  simp only [except_bind_ok, hval]


/-- C3 counterexample: a pointer item whose decode yields null is never cached
(Python's None is both the null value and the "unset" sentinel), so the decode
branch — counted by `decodes` — runs again on every subsequent call, refuting
"the value cache is mutated exactly once, on the first deserialize_item call
that decodes that item; every subsequent call performs no decoding". -/
theorem c3_null_item_redecoded :
    HkxParser.deserialize_item 10 pC3 ⟨dC3, 0⟩ (some 1) = .ok (.null, pC3x 1) ∧
    (pC3x 1).decodes = 1 ∧
    (∃ items, (pC3x 1).items = some items ∧ items[1]? = some (some itemC3) ∧
      itemC3.value = none) ∧
    HkxParser.deserialize_item 10 (pC3x 1) ⟨dC3, 0⟩ (some 1) = .ok (.null, pC3x 2) ∧
    (pC3x 2).decodes = 2 :=
  ⟨rfl, rfl, ⟨[none, some itemC3], rfl, rfl, rfl⟩, rfl, rfl⟩

/-- Witness for C3 (amended) at a concrete cached item. -/
theorem c3_deserialize_item_cache_hit_witness :
    HkxParser.deserialize_item 7 pC3c ⟨[], 0⟩ (some 1) = .ok (.int 5, pC3c) :=
  c3_deserialize_item_cache_hit 6 pC3c ⟨[], 0⟩ 1 [none, some itemC3c] itemC3c
    (.int 5) rfl rfl rfl


theorem pC1_items (d : Nat) :
    (pC1 d).items = some [none, some itemC1a, some itemC1b] := rfl

theorem pC1_types (d : Nat) :
    (pC1 d).types = some [none, some tyC1R, some tyC1P] := rfl

theorem pC1_decodes_update (d : Nat) :
    HkxParser.mk (some ⟨dC1, 0⟩) none none (some [none, some tyC1R, some tyC1P])
      (some [none, some itemC1a, some itemC1b]) (d + 1) = pC1 (d + 1) := rfl

theorem pC1_data (d : Nat) : (pC1 d).data = some ⟨dC1, 0⟩ := rfl

theorem pC1_tstr (d : Nat) : (pC1 d).tstr = none := rfl

theorem pC1_fstr (d : Nat) : (pC1 d).fstr = none := rfl

theorem pC1_decodes (d : Nat) : (pC1 d).decodes = d := rfl

theorem c1_L1a (f d off : Nat)
    (h : HkxParser.deserialize_object f (pC1 (d + 1)) ⟨dC1, 0⟩ (some 1)
      = .error .outOfFuel) :
    HkxParser.deserialize_item (f + 1) (pC1 d) ⟨dC1, off⟩ (some 1)
      = .error .outOfFuel := by
  simp only [HkxParser.deserialize_item, pC1_items, except_bind_ok,
    except_bind_error, pyIndex,
    show ([none, some itemC1a, some itemC1b][1]? : Option (Option Item))
      = some (some itemC1a) from rfl,
    show itemC1a.value = none from rfl, show itemC1a.is_array = false from rfl,
    show itemC1a.offset = 0 from rfl, show itemC1a.type = 1 from rfl,
    BufferReader.clone, pC1_data, pC1_tstr, pC1_fstr, pC1_types, pC1_decodes,
    pC1_decodes_update, h]

theorem c1_L1b (f d off : Nat)
    (h : HkxParser.deserialize_object f (pC1 (d + 1)) ⟨dC1, 8⟩ (some 1)
      = .error .outOfFuel) :
    HkxParser.deserialize_item (f + 1) (pC1 d) ⟨dC1, off⟩ (some 2)
      = .error .outOfFuel := by
  simp only [HkxParser.deserialize_item, pC1_items, except_bind_ok,
    except_bind_error, pyIndex,
    show ([none, some itemC1a, some itemC1b][2]? : Option (Option Item))
      = some (some itemC1b) from rfl,
    show itemC1b.value = none from rfl, show itemC1b.is_array = false from rfl,
    show itemC1b.offset = 8 from rfl, show itemC1b.type = 1 from rfl,
    BufferReader.clone, pC1_data, pC1_tstr, pC1_fstr, pC1_types, pC1_decodes,
    pC1_decodes_update, h]

theorem c1_L2 (f d : Nat) (r : BufferReader)
    (h : HkxParser.deserialize_object_impl f (pC1 d) r 1 = .error .outOfFuel) :
    HkxParser.deserialize_object (f + 1) (pC1 d) r (some 1)
      = .error .outOfFuel := by
  simp only [HkxParser.deserialize_object, pC1_types, except_bind_ok,
    except_bind_error, pyIndex,
    show ([none, some tyC1R, some tyC1P][1]? : Option (Option Ty))
      = some (some tyC1R) from rfl,
    show Ty.resolve [none, some tyC1R, some tyC1P] 1 = .ok 1 from rfl,
    show tyC1R.align = none from rfl, show tyC1R.size = none from rfl, h]

theorem c1_L5 (f d : Nat) (r : BufferReader)
    (h : HkxParser.deserialize_object_impl f (pC1 d) r 2 = .error .outOfFuel) :
    HkxParser.deserialize_object (f + 1) (pC1 d) r (some 2)
      = .error .outOfFuel := by
  simp only [HkxParser.deserialize_object, pC1_types, except_bind_ok,
    except_bind_error, pyIndex,
    show ([none, some tyC1R, some tyC1P][2]? : Option (Option Ty))
      = some (some tyC1P) from rfl,
    show Ty.resolve [none, some tyC1R, some tyC1P] 2 = .ok 2 from rfl,
    show tyC1P.align = none from rfl, show tyC1P.size = none from rfl, h]

theorem c1_L3 (f d : Nat) (r : BufferReader)
    (h : HkxParser.deserializeFieldsGo f (pC1 d) r r.tell [fldC1] []
      = .error .outOfFuel) :
    HkxParser.deserialize_object_impl (f + 1) (pC1 d) r 1 = .error .outOfFuel := by
  simp only [HkxParser.deserialize_object_impl, pC1_types, except_bind_ok,
    except_bind_error, pyIndex,
    show ([none, some tyC1R, some tyC1P][1]? : Option (Option Ty))
      = some (some tyC1R) from rfl,
    show tyC1R.format = some 7 from rfl,
    show ((7 : Nat) &&& 31) = 7 from rfl,
    show Ty.all_fields [none, some tyC1R, some tyC1P] 1 = .ok [fldC1] from rfl, h]

theorem c1_L4 (f d o : Nat) (r : BufferReader)
    (h : HkxParser.deserialize_object f (pC1 d) ⟨r.data, o⟩ (some 2)
      = .error .outOfFuel) :
    HkxParser.deserializeFieldsGo (f + 1) (pC1 d) r o [fldC1] []
      = .error .outOfFuel := by
  simp only [HkxParser.deserializeFieldsGo, BufferReader.seek,
    show fldC1.offset = 0 from rfl, show fldC1.type = some 2 from rfl,
    Nat.add_zero, except_bind_ok, except_bind_error, h]

theorem c1_L6a (f d : Nat)
    (h : HkxParser.deserialize_item f (pC1 d) ⟨dC1, 8⟩ (some 2)
      = .error .outOfFuel) :
    HkxParser.deserialize_object_impl (f + 1) (pC1 d) ⟨dC1, 0⟩ 2
      = .error .outOfFuel := by
  simp only [HkxParser.deserialize_object_impl, pC1_types, except_bind_ok,
    except_bind_error, pyIndex,
    show ([none, some tyC1R, some tyC1P][2]? : Option (Option Ty))
      = some (some tyC1P) from rfl,
    show tyC1P.format = some 6 from rfl,
    show ((6 : Nat) &&& 31) = 6 from rfl,
    show HkxParser.read_pointer (pC1 d) ⟨dC1, 0⟩
      = .ok (some 2, ⟨dC1, 8⟩) from rfl,
    show checkPointerType (pC1 d) [none, some tyC1R, some tyC1P] tyC1P (some 2)
      = .ok () from rfl, h]

theorem c1_L6b (f d : Nat)
    (h : HkxParser.deserialize_item f (pC1 d) ⟨dC1, 16⟩ (some 1)
      = .error .outOfFuel) :
    HkxParser.deserialize_object_impl (f + 1) (pC1 d) ⟨dC1, 8⟩ 2
      = .error .outOfFuel := by
  simp only [HkxParser.deserialize_object_impl, pC1_types, except_bind_ok,
    except_bind_error, pyIndex,
    show ([none, some tyC1R, some tyC1P][2]? : Option (Option Ty))
      = some (some tyC1P) from rfl,
    show tyC1P.format = some 6 from rfl,
    show ((6 : Nat) &&& 31) = 6 from rfl,
    show HkxParser.read_pointer (pC1 d) ⟨dC1, 8⟩
      = .ok (some 1, ⟨dC1, 16⟩) from rfl,
    show checkPointerType (pC1 d) [none, some tyC1R, some tyC1P] tyC1P (some 1)
      = .ok () from rfl, h]

theorem c1_cycle_aux : ∀ n d off,
    HkxParser.deserialize_item n (pC1 d) ⟨dC1, off⟩ (some 1) = .error .outOfFuel ∧
    HkxParser.deserialize_item n (pC1 d) ⟨dC1, off⟩ (some 2) = .error .outOfFuel := by
  intro n
  induction n using Nat.strong_induction_on with
  | _ n ih =>
    intro d off
    rcases Nat.lt_or_ge n 6 with h6 | h6
    · interval_cases n <;> exact ⟨rfl, rfl⟩
    · obtain ⟨m, rfl⟩ : ∃ m, n = m + 1 + 1 + 1 + 1 + 1 + 1 := ⟨n - 6, by omega⟩
      constructor
      · exact c1_L1a (m + 1 + 1 + 1 + 1 + 1) d off
          (c1_L2 (m + 1 + 1 + 1 + 1) (d + 1) ⟨dC1, 0⟩
            (c1_L3 (m + 1 + 1 + 1) (d + 1) ⟨dC1, 0⟩
              (c1_L4 (m + 1 + 1) (d + 1) 0 ⟨dC1, 0⟩
                (c1_L5 (m + 1) (d + 1) ⟨dC1, 0⟩
                  (c1_L6a m (d + 1) ((ih m (by omega) (d + 1) 8).2))))))
      · exact c1_L1b (m + 1 + 1 + 1 + 1 + 1) d off
          (c1_L2 (m + 1 + 1 + 1 + 1) (d + 1) ⟨dC1, 8⟩
            (c1_L3 (m + 1 + 1 + 1) (d + 1) ⟨dC1, 8⟩
              (c1_L4 (m + 1 + 1) (d + 1) 8 ⟨dC1, 8⟩
                (c1_L5 (m + 1) (d + 1) ⟨dC1, 8⟩
                  (c1_L6b m (d + 1) ((ih m (by omega) (d + 1) 16).1))))))

/-- C1, the code evaluated at the failing input.  For the S6 scenario — two
items, each a record whose only field is a pointer to the other —
`deserialize_item` on item #1 exhausts EVERY fuel bound: the recursion never
terminates, because the source installs the cache slot only *after* the
recursive decode returns, so the cycle never hits the cache.  (In Python the
call dies with RecursionError instead of producing the claimed cyclic
mapping.) -/
theorem c1_pointer_cycle_diverges (fuel : Nat) :
    HkxParser.deserialize_item fuel (pC1 0) ⟨dC1, 0⟩ (some 1)
      = .error .outOfFuel :=
  (c1_cycle_aux fuel 0 0).1
